import Mathlib

/-!
Shallow embedding of the Wiktok repository: the client feed controller
(the data-flow hooks of the App component) and the backend HTTP handlers,
with theorems checking the specification's claims about them.
-/

namespace Wiktok

/-- Article value, from the client type declarations (`types/index.ts`).
The optional trending fields and the like flag are carried for fidelity;
no claim inspects them. -/
structure Article where
  id : Int
  title : String
  extract : String
  thumbnail : Option String
  url : String
  views : Option Int := none
  rank : Option Int := none
  isLiked : Option Bool := none
deriving DecidableEq

/-- Client feed state: the useState hooks of App plus the `isFetchingRef`
guard. `networkCalls` is a ghost counter that records how many network
requests have been dispatched; it changes exactly when a fetch is actually
issued and never influences behavior. -/
structure AppState where
  articles : List Article
  currentIndex : Int
  loading : Bool
  error : Option String
  isInitialLoad : Bool
  isFetching : Bool
  networkCalls : Nat
deriving DecidableEq

/-- The state of App at mount: `useState` initial values, `isFetchingRef`
false, no network call yet. -/
def initialState : AppState :=
  ⟨[], 0, true, none, true, false, 0⟩

/-- A JavaScript thrown value: either an `Error` with a message, or any
other value (the `err instanceof Error` test distinguishes them). -/
inductive JsThrown where
  | jsError (message : String)
  | nonError
deriving DecidableEq

/-- The text App stores in `error` for a thrown value:
`err instanceof Error ? err.message : ...` fallback. -/
def errorText (e : JsThrown) : String :=
  match e with
  | .jsError m => m
  | .nonError => "An unknown error occurred"

/-- Outcome of the awaited part of a fetch: a parsed JSON page, a non-ok
HTTP response (App then throws `Error` with text `HTTP error` + status),
or a rejection (network failure or JSON parse failure). -/
inductive FetchResult where
  | success (data : List Article)
  | httpError (status : Nat)
  | thrown (e : JsThrown)
deriving DecidableEq

/-- Whether the fetch outcome takes the catch path of `fetchArticles`. -/
def isFailure (r : FetchResult) : Bool :=
  match r with
  | .success _ => false
  | .httpError _ => true
  | .thrown _ => true

/-- The message of a failing fetch outcome, as `fetchArticles` computes it:
the thrown `Error` message for a non-ok response, else the thrown value's
text. Only meaningful when `isFailure` holds. -/
def failureMessage (r : FetchResult) : String :=
  match r with
  | .success _ => ""
  | .httpError st => "HTTP error " ++ toString st
  | .thrown e => errorText e

/-- Synchronous prefix of `fetchArticles`, up to the first await: the dedup
guard, then `isFetchingRef.current = true`, `setLoading(true)`,
`setError(null)` and the dispatch of the network request. -/
def fetchStart (s : AppState) : AppState :=
  if s.isFetching then s
  else { s with isFetching := true, loading := true, error := none,
                networkCalls := s.networkCalls + 1 }

/-- Continuation of `fetchArticles` after the awaited response resolves,
for a state in which a fetch is in flight: the success append (and
`isInitialLoad` clearing), the catch branch setting `error`, and the
finally branch clearing `loading` and `isFetchingRef`. -/
def fetchResolve (s : AppState) (result : FetchResult) : AppState :=
  if s.isFetching = false then s
  else
    let s1 :=
      match result with
      | .success data =>
          let s2 := { s with articles := s.articles ++ data }
          if s2.isInitialLoad then { s2 with isInitialLoad := false } else s2
      | .httpError st => { s with error := some ("HTTP error " ++ toString st) }
      | .thrown e => { s with error := some (errorText e) }
    { s1 with loading := false, isFetching := false }

/-- A whole run of `fetchArticles` viewed atomically: early return when a
fetch is already in flight, otherwise dispatch and then resolve with the
given outcome. -/
def fetchArticles (s : AppState) (result : FetchResult) : AppState :=
  if s.isFetching then s else fetchResolve (fetchStart s) result

/-- Navigation: `goToNext` increments the cursor only below the last index. -/
def goToNext (s : AppState) : AppState :=
  if s.currentIndex < (s.articles.length : Int) - 1 then
    { s with currentIndex := s.currentIndex + 1 }
  else s

/-- Navigation: `goToPrevious` decrements the cursor only above zero. -/
def goToPrevious (s : AppState) : AppState :=
  if 0 < s.currentIndex then
    { s with currentIndex := s.currentIndex - 1 }
  else s

/-- A navigation intent, as the spec's `advance(direction)`. -/
inductive Direction where
  | next
  | previous
deriving DecidableEq

/-- `advance` dispatches to the two navigation handlers. -/
def advance (s : AppState) (d : Direction) : AppState :=
  match d with
  | .next => goToNext s
  | .previous => goToPrevious s

/-- A sequence of advance calls, applied left to right. -/
def advanceAll (s : AppState) (ds : List Direction) : AppState :=
  ds.foldl advance s

/-- Number of articles requested per batch (App constant). -/
def BATCH_SIZE : Int := 10

/-- Prefetch when this many articles away from the end (App constant). -/
def PREFETCH_THRESHOLD : Int := 3

/-- Condition of the prefetch effect:
`currentIndex >= articles.length - PREFETCH_THRESHOLD && !loading &&
articles.length > 0`. -/
def shouldPrefetch (s : AppState) : Bool :=
  decide ((s.articles.length : Int) - PREFETCH_THRESHOLD ≤ s.currentIndex)
    && !s.loading
    && decide (0 < s.articles.length)

/-- The prefetch effect: when its condition holds it invokes
`fetchArticles` (whose own guard and outcome handling apply), otherwise it
does nothing. -/
def prefetchStep (s : AppState) (result : FetchResult) : AppState :=
  if shouldPrefetch s then fetchArticles s result else s

/-- JavaScript `Array.prototype.slice` index resolution: negative indices
count from the end, and the result is clamped to `[0, len]`. -/
def sliceBound (len : Nat) (i : Int) : Nat :=
  if i < 0 then ((len : Int) + i).toNat else min i.toNat len

/-- JavaScript `Array.prototype.slice(start, stop)`. -/
def jsSlice (l : List α) (start stop : Int) : List α :=
  (l.drop (sliceBound l.length start)).take
    (sliceBound l.length stop - sliceBound l.length start)

/-- The render window of App: `articles.slice(max(0, currentIndex - 1),
min(articles.length, currentIndex + 2))`, a pure function of the cursor
and the item list. -/
def renderWindow (cursor : Int) (items : List Article) : List Article :=
  jsSlice items (max 0 (cursor - 1)) (min (items.length : Int) (cursor + 2))

/-- Content of the session cache at the fixed key, as `loadCachedArticles`
discriminates it: no stored value (or an empty, falsy string), a stored
string that `JSON.parse` rejects, or one that parses to an article list. -/
inductive CacheState where
  | absent
  | malformed
  | cached (data : List Article)
deriving DecidableEq

/-- `loadCachedArticles`: on a present, parseable cache value it adopts the
parsed list, clears `isInitialLoad` and `loading` and reports a hit; a
missing value or a parse failure (caught) reports a miss and leaves the
state alone. -/
def loadCachedArticles (s : AppState) (cache : CacheState) : AppState × Bool :=
  match cache with
  | .cached data =>
      ({ s with articles := data, isInitialLoad := false, loading := false }, true)
  | .malformed => (s, false)
  | .absent => (s, false)

/-- The mount effect of App: try the cache first; only on a miss fall
through to `fetchArticles` with the given network outcome. -/
def mountLoad (s : AppState) (cache : CacheState) (result : FetchResult) : AppState :=
  let p := loadCachedArticles s cache
  if p.2 then p.1 else fetchArticles p.1 result

/-- JSON body of a backend response, by shape. -/
inductive RespBody where
  | errOnly (error : String)
  | errWithMessage (error : String) (message : String)
  | articleJson (a : Article)
  | articleListJson (l : List Article)
deriving DecidableEq

/-- A backend HTTP response: status code and JSON body. -/
structure Resp where
  status : Nat
  body : RespBody
deriving DecidableEq

/-- `count` as the batch route reads it:
`req.query.count ? parseInt(req.query.count) : 5`. `none` models an absent
(or empty) query parameter. -/
def batchCount (countParam : Option Int) : Int :=
  match countParam with
  | some c => c
  | none => 5

/-- `limitedCount = Math.min(count, 10)`: the count actually passed to
`getRandomArticles`. -/
def batchUsedCount (countParam : Option Int) : Int :=
  min (batchCount countParam) 10

/-- The `/api/random/batch` handler. `source` stands for the combined
awaited effects (`getRandomArticles`, `saveArticles`,
`addLikeStatusToArticles`) as a function of the count actually used; any
throw is caught and answered with status 500. -/
def handleRandomBatch (countParam : Option Int)
    (source : Int → Except String (List Article)) : Resp :=
  match source (batchUsedCount countParam) with
  | .ok arts => ⟨200, .articleListJson arts⟩
  | .error e => ⟨500, .errWithMessage "Failed to fetch Wikipedia articles" e⟩

/-- The `POST /api/articles/:id/like` handler. `articleId` models
`parseInt(req.params.id)` (`none` for NaN); `effects` models the awaited
`likeArticle` and `getArticleById` calls: a throw (caught, answered 500),
or the article lookup result. -/
def handleLikeRoute (articleId : Option Int)
    (effects : Except String (Option Article)) : Resp :=
  match articleId with
  | none => ⟨400, .errOnly "Invalid article ID"⟩
  | some _ =>
      match effects with
      | .error e => ⟨500, .errWithMessage "Failed to like article" e⟩
      | .ok none => ⟨404, .errOnly "Article not found"⟩
      | .ok (some a) => ⟨200, .articleJson a⟩

/-- The `DELETE /api/articles/:id/like` handler, identical to the like
route except for the 500 error label. -/
def handleUnlikeRoute (articleId : Option Int)
    (effects : Except String (Option Article)) : Resp :=
  match articleId with
  | none => ⟨400, .errOnly "Invalid article ID"⟩
  | some _ =>
      match effects with
      | .error e => ⟨500, .errWithMessage "Failed to unlike article" e⟩
      | .ok none => ⟨404, .errOnly "Article not found"⟩
      | .ok (some a) => ⟨200, .articleJson a⟩

/-! ### Concrete fixtures used by witnesses and examples -/

/-- A minimal concrete article with a given id and title. -/
def mkArticle (n : Int) (t : String) : Article :=
  ⟨n, t, "", none, "", none, none, none⟩

def articleA : Article := mkArticle 1 "A"

def articleB : Article := mkArticle 2 "B"

def articleC : Article := mkArticle 3 "C"

/-- A feed of ten distinct articles. -/
def page10 : List Article :=
  (List.range 10).map (fun n => mkArticle n "")

/-- Idle state holding `page10` with the cursor at index 7. -/
def feed10at7 : AppState :=
  ⟨page10, 7, false, none, false, false, 1⟩

/-- Idle state holding `page10` with the cursor at index 6. -/
def feed10at6 : AppState :=
  ⟨page10, 6, false, none, false, false, 1⟩

/-- Idle state holding three articles with the cursor at index 0. -/
def feedABC : AppState :=
  ⟨[articleA, articleB, articleC], 0, false, none, false, false, 1⟩

/-- Idle state with an empty feed and a cursor value 5. -/
def emptyAt5 : AppState :=
  ⟨[], 5, false, none, false, false, 0⟩

/-! ### Claim C1: fetch deduplication -/

/-- Claim C1: while a fetch is in flight, every further `fetchArticles`
invocation is a no-op, so any sequence of invocations issued before the
first resolves makes exactly one network call: the first invocation
increments the ghost call counter once and every iterate of further
invocations leaves the state (counter included) fixed. -/
theorem fetch_dedup (s : AppState) (h : s.isFetching = false) :
    (fetchStart s).networkCalls = s.networkCalls + 1 ∧
    (∀ r : FetchResult, fetchArticles (fetchStart s) r = fetchStart s) ∧
    ∀ n : Nat, fetchStart^[n] (fetchStart s) = fetchStart s := by
  refine ⟨by simp [fetchStart, h], fun r => ?_, fun n => ?_⟩
  · simp [fetchArticles, fetchStart, h]
  · apply Function.iterate_fixed
    simp [fetchStart, h]

theorem fetch_dedup_witness :
    initialState.isFetching = false ∧
    (fetchStart initialState).networkCalls = initialState.networkCalls + 1 ∧
    fetchArticles (fetchStart initialState) (.success [articleA]) =
      fetchStart initialState ∧
    fetchStart^[2] (fetchStart initialState) = fetchStart initialState :=
  ⟨rfl, (fetch_dedup initialState rfl).1,
   (fetch_dedup initialState rfl).2.1 (.success [articleA]),
   (fetch_dedup initialState rfl).2.2 2⟩

/-! ### Claim C2: all-or-nothing page append -/

/-- Evaluation of a dispatched successful run of `fetchArticles`. -/
lemma fetchArticles_success (s : AppState) (h : s.isFetching = false)
    (data : List Article) :
    fetchArticles s (.success data) =
      ⟨s.articles ++ data, s.currentIndex, false, none, false, false,
        s.networkCalls + 1⟩ := by
  cases hi : s.isInitialLoad <;>
    simp [fetchArticles, fetchStart, fetchResolve, h, hi]

/-- Evaluation of a dispatched run of `fetchArticles` hitting a non-ok
HTTP response. -/
lemma fetchArticles_httpError (s : AppState) (h : s.isFetching = false)
    (st : Nat) :
    fetchArticles s (.httpError st) =
      ⟨s.articles, s.currentIndex, false, some ("HTTP error " ++ toString st),
        s.isInitialLoad, false, s.networkCalls + 1⟩ := by
  simp [fetchArticles, fetchStart, fetchResolve, h]

/-- Evaluation of a dispatched run of `fetchArticles` whose awaited part
throws. -/
lemma fetchArticles_thrown (s : AppState) (h : s.isFetching = false)
    (e : JsThrown) :
    fetchArticles s (.thrown e) =
      ⟨s.articles, s.currentIndex, false, some (errorText e),
        s.isInitialLoad, false, s.networkCalls + 1⟩ := by
  simp [fetchArticles, fetchStart, fetchResolve, h]

/-- Claim C2: a dispatched `fetchArticles` run appends the returned page,
in order, to the item list on success; on any failure it leaves the items
unchanged and stores the failure message in `error`. -/
theorem fetch_outcome (s : AppState) (h : s.isFetching = false) :
    (∀ data : List Article,
       (fetchArticles s (.success data)).articles = s.articles ++ data) ∧
    (∀ r : FetchResult, isFailure r = true →
       (fetchArticles s r).articles = s.articles ∧
       (fetchArticles s r).error = some (failureMessage r)) := by
  constructor
  · intro data
    rw [fetchArticles_success s h data]
  · intro r hr
    cases r with
    | success data => simp [isFailure] at hr
    | httpError st => rw [fetchArticles_httpError s h st]; exact ⟨rfl, rfl⟩
    | thrown e => rw [fetchArticles_thrown s h e]; exact ⟨rfl, rfl⟩

theorem fetch_outcome_witness :
    (fetchArticles feedABC (.success [mkArticle 4 "D"])).articles =
      feedABC.articles ++ [mkArticle 4 "D"] ∧
    (fetchArticles feedABC (.httpError 500)).articles = feedABC.articles ∧
    (fetchArticles feedABC (.httpError 500)).error =
      some (failureMessage (.httpError 500)) :=
  ⟨(fetch_outcome feedABC rfl).1 [mkArticle 4 "D"],
   ((fetch_outcome feedABC rfl).2 (.httpError 500) rfl).1,
   ((fetch_outcome feedABC rfl).2 (.httpError 500) rfl).2⟩

/-! ### Claim C5: exit-path flags -/

/-- Claim C5 as stated is false: the dedup early return exits while the
in-flight fetch still holds `loading` and `isFetching` true. Witnessed at
the state reached by dispatching a fetch from the initial state. -/
theorem fetch_exit_flags_cex :
    ¬ ∀ (s : AppState) (r : FetchResult),
        (fetchArticles s r).loading = false ∧
        (fetchArticles s r).isFetching = false := by
  intro hAll
  have h1 := (hAll (fetchStart initialState) (.success [])).1
  have h2 : (fetchArticles (fetchStart initialState) (.success [])).loading = true := by
    decide
  exact Bool.false_ne_true (h1.symm.trans h2)

/-- Claim C5 amended: a dispatched run (success or failure) exits with
`loading = false` and `isFetching = false`; the dedup early return leaves
the state entirely unchanged, so both flags keep the values the in-flight
fetch gave them. In particular `isFetching` after any call equals
`isFetching` before, and `loading` after is `isFetching && loading`. -/
theorem fetch_exit_flags (s : AppState) (r : FetchResult) :
    (fetchArticles s r).isFetching = s.isFetching ∧
    (fetchArticles s r).loading = (s.isFetching && s.loading) ∧
    (s.isFetching = true → fetchArticles s r = s) := by
  cases h : s.isFetching
  · refine ⟨?_, ?_, fun hc => absurd hc (by simp [h])⟩ <;>
      cases r with
      | success data => rw [fetchArticles_success s h data] <;> simp [h]
      | httpError st => rw [fetchArticles_httpError s h st] <;> simp [h]
      | thrown e => rw [fetchArticles_thrown s h e] <;> simp [h]
  · refine ⟨?_, ?_, fun _ => ?_⟩ <;> simp [fetchArticles, h]

theorem fetch_exit_flags_witness :
    (fetchArticles (fetchStart initialState) (.success [])).isFetching =
      (fetchStart initialState).isFetching ∧
    (fetchArticles (fetchStart initialState) (.success [])).loading =
      ((fetchStart initialState).isFetching && (fetchStart initialState).loading) ∧
    fetchArticles (fetchStart initialState) (.success []) = fetchStart initialState :=
  ⟨(fetch_exit_flags (fetchStart initialState) (.success [])).1,
   (fetch_exit_flags (fetchStart initialState) (.success [])).2.1,
   (fetch_exit_flags (fetchStart initialState) (.success [])).2.2 rfl⟩

/-! ### Claim C3: cursor bounds and boundary no-ops -/

/-- Navigation never touches the item list. -/
lemma advance_articles (s : AppState) (d : Direction) :
    (advance s d).articles = s.articles := by
  cases d <;>
    · simp only [advance, goToNext, goToPrevious]
      split <;> rfl

/-- The cursor after `goToNext`, as a conditional expression. -/
lemma goToNext_currentIndex (s : AppState) :
    (goToNext s).currentIndex =
      if s.currentIndex < (s.articles.length : Int) - 1 then
        s.currentIndex + 1
      else s.currentIndex := by
  rw [goToNext]; split <;> rfl

/-- The cursor after `goToPrevious`, as a conditional expression. -/
lemma goToPrevious_currentIndex (s : AppState) :
    (goToPrevious s).currentIndex =
      if 0 < s.currentIndex then s.currentIndex - 1 else s.currentIndex := by
  rw [goToPrevious]; split <;> rfl

/-- One navigation step preserves the cursor bounds. -/
lemma advance_bounds (s : AppState) (d : Direction)
    (h2 : 0 ≤ s.currentIndex)
    (h3 : s.currentIndex ≤ (s.articles.length : Int) - 1) :
    0 ≤ (advance s d).currentIndex ∧
    (advance s d).currentIndex ≤ (s.articles.length : Int) - 1 := by
  cases d <;>
    · simp only [advance, goToNext_currentIndex, goToPrevious_currentIndex]
      split <;> constructor <;> omega

lemma advanceAll_cons (s : AppState) (d : Direction) (ds : List Direction) :
    advanceAll s (d :: ds) = advanceAll (advance s d) ds := rfl

/-- Any sequence of navigation steps preserves the item list and the
cursor bounds. -/
lemma advanceAll_inv (ds : List Direction) : ∀ s : AppState,
    0 ≤ s.currentIndex → s.currentIndex ≤ (s.articles.length : Int) - 1 →
    (advanceAll s ds).articles = s.articles ∧
    0 ≤ (advanceAll s ds).currentIndex ∧
    (advanceAll s ds).currentIndex ≤ (s.articles.length : Int) - 1 := by
  induction ds with
  | nil => exact fun s h2 h3 => ⟨rfl, h2, h3⟩
  | cons d ds ih =>
      intro s h2 h3
      have ha := advance_articles s d
      have hb := advance_bounds s d h2 h3
      obtain ⟨ia, i0, i1⟩ := ih (advance s d) hb.1 (by rw [ha]; exact hb.2)
      rw [ha] at ia i1
      exact ⟨by rw [advanceAll_cons, ia], by rw [advanceAll_cons]; exact i0,
        by rw [advanceAll_cons]; exact i1⟩

/-- Claim C3: from any in-bounds state with a non-empty item list, every
sequence of advance calls keeps `0 <= cursor <= items.length - 1` and
leaves the items alone; `Next` at the last index and `Previous` at index 0
are no-ops under arbitrarily many repeated calls. -/
theorem cursor_bounds (s : AppState) (_h1 : s.articles ≠ [])
    (h2 : 0 ≤ s.currentIndex)
    (h3 : s.currentIndex ≤ (s.articles.length : Int) - 1) :
    (∀ ds : List Direction,
        (advanceAll s ds).articles = s.articles ∧
        0 ≤ (advanceAll s ds).currentIndex ∧
        (advanceAll s ds).currentIndex ≤ (s.articles.length : Int) - 1) ∧
    (s.currentIndex = (s.articles.length : Int) - 1 →
        ∀ n : Nat, goToNext^[n] s = s) ∧
    (s.currentIndex = 0 → ∀ n : Nat, goToPrevious^[n] s = s) := by
  refine ⟨fun ds => advanceAll_inv ds s h2 h3, fun hl n => ?_, fun h0 n => ?_⟩
  · apply Function.iterate_fixed
    rw [goToNext, if_neg (by omega)]
  · apply Function.iterate_fixed
    rw [goToPrevious, if_neg (by omega)]

theorem cursor_bounds_witness :
    ((advanceAll feedABC [.next, .next, .next, .previous]).articles =
        feedABC.articles ∧
      0 ≤ (advanceAll feedABC [.next, .next, .next, .previous]).currentIndex ∧
      (advanceAll feedABC [.next, .next, .next, .previous]).currentIndex ≤
        (feedABC.articles.length : Int) - 1) ∧
    goToPrevious^[4] feedABC = feedABC :=
  ⟨(cursor_bounds feedABC (by decide) (by decide) (by decide)).1
      [.next, .next, .next, .previous],
   (cursor_bounds feedABC (by decide) (by decide) (by decide)).2.2 rfl 4⟩

/-! ### Claim C4: prefetch trigger condition -/

/-- A discrete event hitting the feed state: the synchronous dispatch part
of a fetch, the resolution of an in-flight fetch, or a navigation step. -/
inductive Event where
  | start
  | resolve (r : FetchResult)
  | nav (d : Direction)
deriving DecidableEq

/-- One event applied to the state. -/
def step (s : AppState) (e : Event) : AppState :=
  match e with
  | .start => fetchStart s
  | .resolve r => fetchResolve s r
  | .nav d => advance s d

/-- Claim C4: under the invariant `loading = isFetching` — which holds in
every state the events can produce from one satisfying it, as the second
conjunct shows — the prefetch condition holds exactly when
`items.length - cursor <= PREFETCH_THRESHOLD`, no fetch is in flight, and
the items are non-empty; concretely, with ten items and no fetch in
flight, the trigger at cursor 7 dispatches exactly one network call and at
cursor 6 does nothing. -/
theorem prefetch_trigger (s : AppState) (h : s.loading = s.isFetching) :
    (shouldPrefetch s = true ↔
       ((s.articles.length : Int) - s.currentIndex ≤ PREFETCH_THRESHOLD ∧
        s.isFetching = false ∧ s.articles ≠ [])) ∧
    (∀ e : Event, (step s e).loading = (step s e).isFetching) ∧
    (prefetchStep feed10at7 (.success page10)).networkCalls =
      feed10at7.networkCalls + 1 ∧
    prefetchStep feed10at6 (.success page10) = feed10at6 := by
  refine ⟨?_, ?_, by decide, by decide⟩
  · rw [shouldPrefetch]
    simp only [PREFETCH_THRESHOLD, Bool.and_eq_true, decide_eq_true_eq,
      Bool.not_eq_true']
    rw [h]
    constructor
    · rintro ⟨⟨hle, hf⟩, hpos⟩
      exact ⟨by omega, hf, List.length_pos.mp hpos⟩
    · rintro ⟨hle, hf, hne⟩
      exact ⟨⟨by omega, hf⟩, List.length_pos.mpr hne⟩
  · intro e
    cases e with
    | start =>
        simp only [step, fetchStart]
        split
        · exact h
        · rfl
    | resolve r =>
        simp only [step, fetchResolve]
        split
        · exact h
        · rfl
    | nav d =>
        cases d <;>
          · simp only [step, advance, goToNext, goToPrevious]
            split <;> exact h

theorem prefetch_trigger_witness :
    (shouldPrefetch feed10at7 = true ↔
       ((feed10at7.articles.length : Int) - feed10at7.currentIndex ≤
          PREFETCH_THRESHOLD ∧
        feed10at7.isFetching = false ∧ feed10at7.articles ≠ [])) ∧
    (step feed10at7 .start).loading = (step feed10at7 .start).isFetching :=
  ⟨(prefetch_trigger feed10at7 rfl).1, (prefetch_trigger feed10at7 rfl).2.1 .start⟩

/-! ### Claim C10: no prefetch on an empty feed -/

/-- Claim C10: the prefetch trigger never fires while the item list is
empty — its condition requires a positive length — so the prefetch effect
is the identity there, and in particular issues no network call. -/
theorem prefetch_empty (s : AppState) (h : s.articles = []) :
    shouldPrefetch s = false ∧ ∀ r : FetchResult, prefetchStep s r = s := by
  have hs : shouldPrefetch s = false := by
    simp [shouldPrefetch, h]
  exact ⟨hs, fun r => by simp [prefetchStep, hs]⟩

theorem prefetch_empty_witness :
    emptyAt5.articles = [] ∧
    shouldPrefetch emptyAt5 = false ∧
    prefetchStep emptyAt5 (.success []) = emptyAt5 :=
  ⟨rfl, (prefetch_empty emptyAt5 rfl).1, (prefetch_empty emptyAt5 rfl).2 (.success [])⟩

/-! ### Claim C6: render window derivation -/

/-- Elementwise description of `jsSlice` for nonnegative bounds: position
`i` of the slice is source position `start.toNat + i` when that stays
below both `stop` and the length, and absent otherwise. -/
lemma jsSlice_getElem? (l : List α) (start stop : Int)
    (hs : 0 ≤ start) (ht : 0 ≤ stop) (i : Nat) :
    (jsSlice l start stop)[i]? =
      if start + (i : Int) < min stop (l.length : Int) then
        l[start.toNat + i]?
      else none := by
  have h1 : ¬ (start < 0) := by omega
  have h2 : ¬ (stop < 0) := by omega
  simp only [jsSlice, sliceBound, if_neg h1, if_neg h2]
  rw [List.getElem?_take, List.getElem?_drop]
  split_ifs with hc1 hc2 hc2
  · have he : min start.toNat l.length + i = start.toNat + i := by omega
    rw [he]
  · exfalso; omega
  · exfalso; omega
  · rfl

/-- Claim C6: the render window is exactly the index range
`[max(0, cursor-1), min(items.length, cursor+2))` of the item list — in
particular it holds at most three articles — and on the ten-item feed it
is `[4,7)` at cursor 5, `[0,2)` at cursor 0 and `[8,10)` at cursor 9. -/
theorem render_window_range (items : List Article) (cursor : Int)
    (h : 0 ≤ cursor) :
    ((renderWindow cursor items).length ≤ 3 ∧
     ∀ i : Nat,
       (renderWindow cursor items)[i]? =
         if max 0 (cursor - 1) + (i : Int) <
             min (items.length : Int) (cursor + 2) then
           items[(max 0 (cursor - 1)).toNat + i]?
         else none) ∧
    renderWindow 5 page10 = [mkArticle 4 "", mkArticle 5 "", mkArticle 6 ""] ∧
    renderWindow 0 page10 = [mkArticle 0 "", mkArticle 1 ""] ∧
    renderWindow 9 page10 = [mkArticle 8 "", mkArticle 9 ""] := by
  refine ⟨⟨?_, ?_⟩, by decide, by decide, by decide⟩
  · have h1 : ¬ (max 0 (cursor - 1) < 0) := by omega
    have h2 : ¬ (min (items.length : Int) (cursor + 2) < 0) := by omega
    simp only [renderWindow, jsSlice, sliceBound, if_neg h1, if_neg h2,
      List.length_take, List.length_drop]
    omega
  · intro i
    have hmin : min (min (items.length : Int) (cursor + 2))
        (items.length : Int) = min (items.length : Int) (cursor + 2) := by
      omega
    rw [renderWindow,
      jsSlice_getElem? items (max 0 (cursor - 1))
        (min (items.length : Int) (cursor + 2)) (by omega) (by omega) i,
      hmin]

theorem render_window_range_witness :
    (renderWindow 5 page10).length ≤ 3 ∧
    (renderWindow 5 page10)[1]? =
      (if max 0 ((5 : Int) - 1) + (1 : Nat) <
          min (page10.length : Int) (5 + 2) then
        page10[(max 0 ((5 : Int) - 1)).toNat + 1]?
      else none) :=
  ⟨((render_window_range page10 5 (by decide)).1).1,
   ((render_window_range page10 5 (by decide)).1).2 1⟩

/-! ### Claim C7: session-cache restoration -/

/-- Claim C7 as stated is false: restoration is keyed on presence and
parseability alone, not on non-emptiness. A cached empty array is adopted
and the network fetch is skipped, refuting the stated equivalence
(`skips the fetch iff the cache holds a present and non-empty sequence`)
at the fresh controller state. -/
theorem mount_cache_cex :
    ¬ ∀ (cache : CacheState) (result : FetchResult),
        ((mountLoad initialState cache result).networkCalls =
            initialState.networkCalls ↔
          ∃ data : List Article, data ≠ [] ∧ cache = .cached data) := by
  intro hAll
  obtain ⟨d, hd, hc⟩ := (hAll (.cached []) (.success [articleA])).mp (by decide)
  injection hc with h2
  exact hd h2.symm

/-- Claim C7 amended: the mount load adopts the cached sequence, clears
`isInitialLoad` and `loading` and skips the network fetch exactly when the
cache is present and parseable — even when the parsed sequence is empty;
an absent or malformed cache falls through to `fetchArticles`. Restoring a
saved `[A, B, C]` in a fresh controller yields those items, cursor 0, with
no network call. -/
theorem mount_cache (s : AppState) (cache : CacheState) (result : FetchResult) :
    (∀ data : List Article, cache = .cached data →
       mountLoad s cache result =
         { s with articles := data, isInitialLoad := false, loading := false } ∧
       (mountLoad s cache result).networkCalls = s.networkCalls) ∧
    ((cache = .absent ∨ cache = .malformed) →
       mountLoad s cache result = fetchArticles s result) ∧
    (mountLoad initialState (.cached [articleA, articleB, articleC]) result).articles
        = [articleA, articleB, articleC] ∧
    (mountLoad initialState (.cached [articleA, articleB, articleC]) result).currentIndex
        = 0 ∧
    (mountLoad initialState (.cached [articleA, articleB, articleC]) result).networkCalls
        = 0 := by
  refine ⟨?_, ?_, rfl, rfl, rfl⟩
  · rintro data rfl
    exact ⟨rfl, rfl⟩
  · rintro (rfl | rfl) <;> rfl

theorem mount_cache_witness :
    (mountLoad feedABC (.cached []) (.httpError 500) =
       { feedABC with articles := [], isInitialLoad := false, loading := false } ∧
     (mountLoad feedABC (.cached []) (.httpError 500)).networkCalls =
       feedABC.networkCalls) ∧
    mountLoad feedABC .absent (.httpError 500) =
      fetchArticles feedABC (.httpError 500) :=
  ⟨(mount_cache feedABC (.cached []) (.httpError 500)).1 [] rfl,
   (mount_cache feedABC .absent (.httpError 500)).2.1 (Or.inl rfl)⟩

/-! ### Claim C8: batch count clamping -/

/-- Claim C8: the count a batch request actually uses is the requested
value clamped to at most 10 — so requesting more than 10 behaves exactly
like requesting 10 — and an absent `count` parameter defaults to 5. -/
theorem batch_count_clamp (c : Int) :
    batchUsedCount (some c) = min c 10 ∧
    batchUsedCount (some c) ≤ 10 ∧
    batchUsedCount none = 5 ∧
    ∀ source : Int → Except String (List Article),
      handleRandomBatch (some c) source =
        handleRandomBatch (some (min c 10)) source := by
  refine ⟨rfl, min_le_right c 10, rfl, fun source => ?_⟩
  have he : batchUsedCount (some (min c 10)) = batchUsedCount (some c) := by
    simp only [batchUsedCount, batchCount]
    omega
  simp only [handleRandomBatch, he]

/-! ### Claim C9: error response shapes -/

/-- A constant failing article source, used for concrete instances. -/
def srcFail : Int → Except String (List Article) :=
  fun _ => Except.error "boom"

/-- Claim C9 as stated is false: the like route answers a valid id whose
article is missing after the like with HTTP 404 and an error-only body,
which is an error response that is neither a 500 with
`error` and `message` nor a 400 for an invalid path parameter. -/
theorem route_error_responses_cex :
    ¬ ∀ (idp : Option Int) (eff : Except String (Option Article)),
        400 ≤ (handleLikeRoute idp eff).status →
          ((handleLikeRoute idp eff).status = 500 ∧
             ∃ e m, (handleLikeRoute idp eff).body = .errWithMessage e m) ∨
          ((handleLikeRoute idp eff).status = 400 ∧ idp = none ∧
             ∃ e, (handleLikeRoute idp eff).body = .errOnly e) := by
  intro hAll
  rcases hAll (some 1) (.ok none) (by decide) with ⟨h5, _⟩ | ⟨h4, _⟩
  · exact absurd h5 (by decide)
  · exact absurd h4 (by decide)

/-- Claim C9 amended: every error response of the modelled backend routes
is HTTP 500 with `error` and `message`, except that an invalid numeric
path parameter yields HTTP 400 with `error` only, and a missing article on
like or unlike yields HTTP 404 with `error` only. -/
theorem route_error_responses (idp : Option Int)
    (eff : Except String (Option Article)) (cp : Option Int)
    (src : Int → Except String (List Article)) :
    (400 ≤ (handleLikeRoute idp eff).status →
       ((handleLikeRoute idp eff).status = 500 ∧
          ∃ e m, (handleLikeRoute idp eff).body = .errWithMessage e m) ∨
       ((handleLikeRoute idp eff).status = 400 ∧ idp = none ∧
          (handleLikeRoute idp eff).body = .errOnly "Invalid article ID") ∨
       ((handleLikeRoute idp eff).status = 404 ∧ eff = .ok none ∧
          (handleLikeRoute idp eff).body = .errOnly "Article not found")) ∧
    (400 ≤ (handleUnlikeRoute idp eff).status →
       ((handleUnlikeRoute idp eff).status = 500 ∧
          ∃ e m, (handleUnlikeRoute idp eff).body = .errWithMessage e m) ∨
       ((handleUnlikeRoute idp eff).status = 400 ∧ idp = none ∧
          (handleUnlikeRoute idp eff).body = .errOnly "Invalid article ID") ∨
       ((handleUnlikeRoute idp eff).status = 404 ∧ eff = .ok none ∧
          (handleUnlikeRoute idp eff).body = .errOnly "Article not found")) ∧
    (400 ≤ (handleRandomBatch cp src).status →
       (handleRandomBatch cp src).status = 500 ∧
       ∃ e m, (handleRandomBatch cp src).body = .errWithMessage e m) := by
  refine ⟨?_, ?_, ?_⟩
  · intro h
    rcases idp with _ | n
    · exact Or.inr (Or.inl ⟨rfl, rfl, rfl⟩)
    · rcases eff with e | a
      · exact Or.inl ⟨rfl, "Failed to like article", e, rfl⟩
      · rcases a with _ | a
        · exact Or.inr (Or.inr ⟨rfl, rfl, rfl⟩)
        · simp [handleLikeRoute] at h
  · intro h
    rcases idp with _ | n
    · exact Or.inr (Or.inl ⟨rfl, rfl, rfl⟩)
    · rcases eff with e | a
      · exact Or.inl ⟨rfl, "Failed to unlike article", e, rfl⟩
      · rcases a with _ | a
        · exact Or.inr (Or.inr ⟨rfl, rfl, rfl⟩)
        · simp [handleUnlikeRoute] at h
  · intro h
    rcases hres : src (batchUsedCount cp) with e | arts
    · have hgoal : handleRandomBatch cp src =
          ⟨500, .errWithMessage "Failed to fetch Wikipedia articles" e⟩ := by
        rw [handleRandomBatch, hres]
      rw [hgoal]
      exact ⟨rfl, "Failed to fetch Wikipedia articles", e, rfl⟩
    · simp only [handleRandomBatch, hres] at h
      omega

theorem route_error_responses_witness :
    (((handleLikeRoute none (.ok none)).status = 500 ∧
        ∃ e m, (handleLikeRoute none (.ok none)).body = .errWithMessage e m) ∨
     ((handleLikeRoute none (.ok none)).status = 400 ∧
        (none : Option Int) = none ∧
        (handleLikeRoute none (.ok none)).body = .errOnly "Invalid article ID") ∨
     ((handleLikeRoute none (.ok none)).status = 404 ∧
        (Except.ok none : Except String (Option Article)) = .ok none ∧
        (handleLikeRoute none (.ok none)).body = .errOnly "Article not found")) ∧
    ((handleRandomBatch none srcFail).status = 500 ∧
       ∃ e m, (handleRandomBatch none srcFail).body = .errWithMessage e m) :=
  ⟨(route_error_responses none (.ok none) none srcFail).1 (by decide),
   (route_error_responses none (.ok none) none srcFail).2.2 (by decide)⟩

end Wiktok
